import Mathlib

/-
Verification of the two utilities in this repository against their
natural-language specification:

* `.github/scripts/generate-matrix.py` — translates a declarative
  configuration of Ubuntu versions into a CI job matrix.
* `scripts/monitoring/monitor_installation.py` — polls a VM until an
  installation-completion marker appears or a poll ceiling is reached.

The Python code is shallowly embedded: dictionaries with required keys
become structures of `Option` fields together with a `requireField`
accessor that mirrors a raising `dict[key]` lookup (a `KeyError` is an
`Except.error`), `dict.get(key, default)` becomes `Option.getD`, and the
external process-execution facility of the monitor becomes an oracle
`Exec` describing each command invocation's outcome.
-/

namespace GenerateMatrix

/-- The nested `pre_release_image` mapping of an upcoming version
descriptor; `offer` and `sku` are looked up with raising indexing in the
source, hence `Option` fields here. -/
structure PreReleaseImage where
  offer : Option String
  sku : Option String
deriving DecidableEq

/-- One element of `supported_versions` / `upcoming_versions` in
`ubuntu-versions.yml`.  Every key the script may look up is a field;
`none` models an absent key. -/
structure VersionDescriptor where
  version : Option String
  lts : Option String
  image_offer : Option String
  image_sku : Option String
  python : Option String
  status : Option String
  pre_release_image : Option PreReleaseImage
deriving DecidableEq

/-- One record of the generated matrix (the dict built at lines 25-32 and
46-53 of `generate-matrix.py`). -/
structure MatrixEntry where
  ubuntu_version : String
  ubuntu_lts : String
  image_offer : String
  image_sku : String
  python_expected : String
  continue_on_error : Bool
deriving DecidableEq

/-- The parsed configuration document: top-level keys
`supported_versions` and `upcoming_versions`, each possibly absent. -/
structure Config where
  supported_versions : Option (List VersionDescriptor)
  upcoming_versions : Option (List VersionDescriptor)
deriving DecidableEq

/-- A raising dictionary lookup `d[key]`: absent key = `KeyError`,
caught by `main`'s `except` clause. -/
def requireField {α : Type} (o : Option α) : Except String α :=
  match o with
  | some v => Except.ok v
  | none => Except.error ("KeyError")

/-- The entry built for one supported descriptor
(`generate-matrix.py` lines 25-33): raising lookups for `version`,
`image_offer`, `image_sku`, `python`; `get` with default for `lts` and
`status`; `continue_on_error` is `status != active`. -/
def supportedEntry (v : VersionDescriptor) : Except String MatrixEntry :=
  Except.bind (requireField v.version) (fun ver =>
  Except.bind (requireField v.image_offer) (fun offer =>
  Except.bind (requireField v.image_sku) (fun sku =>
  Except.bind (requireField v.python) (fun py =>
  Except.ok
    { ubuntu_version := ver
      ubuntu_lts := Option.getD v.lts ver
      image_offer := offer
      image_sku := sku
      python_expected := py
      continue_on_error := decide (v.status ≠ some ("active")) }))))

/-- The image offer/SKU pair chosen for one upcoming descriptor
(`generate-matrix.py` lines 38-44): the `pre_release_image` override
when that key is present, the standard fields otherwise. -/
def upcomingImage (v : VersionDescriptor) : Except String (String × String) :=
  match v.pre_release_image with
  | some pri =>
      Except.bind (requireField pri.offer) (fun o =>
      Except.bind (requireField pri.sku) (fun s =>
      Except.ok (o, s)))
  | none =>
      Except.bind (requireField v.image_offer) (fun o =>
      Except.bind (requireField v.image_sku) (fun s =>
      Except.ok (o, s)))

/-- The entry built for one upcoming descriptor
(`generate-matrix.py` lines 38-53): image fields from `upcomingImage`,
`continue_on_error` unconditionally `true`. -/
def upcomingEntry (v : VersionDescriptor) : Except String MatrixEntry :=
  Except.bind (upcomingImage v) (fun os =>
  Except.bind (requireField v.version) (fun ver =>
  Except.bind (requireField v.python) (fun py =>
  Except.ok
    { ubuntu_version := ver
      ubuntu_lts := Option.getD v.lts ver
      image_offer := os.1
      image_sku := os.2
      python_expected := py
      continue_on_error := true })))

/-- The `for` loop appending one entry per descriptor, stopping at the
first raising lookup. -/
def buildEntries (f : VersionDescriptor → Except String MatrixEntry) :
    List VersionDescriptor → Except String (List MatrixEntry)
  | [] => Except.ok []
  | v :: rest =>
      Except.bind (f v) (fun e =>
      Except.bind (buildEntries f rest) (fun es =>
      Except.ok (e :: es)))

/-- `generate_matrix` (`generate-matrix.py` lines 19-56): supported
entries from `config.get('supported_versions', [])`, then, only when
`include_upcoming` is set, upcoming entries from
`config.get('upcoming_versions', [])`. -/
def generate_matrix (config : Config) (include_upcoming : Bool) :
    Except String (List MatrixEntry) :=
  Except.bind (buildEntries supportedEntry (Option.getD config.supported_versions [])) (fun supported =>
  if include_upcoming then
    Except.bind (buildEntries upcomingEntry (Option.getD config.upcoming_versions [])) (fun upcoming =>
    Except.ok (supported ++ upcoming))
  else
    Except.ok supported)

/-- Observable behaviour of one run of the script's `main`: the list of
structured documents printed to stdout (each a `{"include": matrix}`
JSON line, represented by its matrix), the stderr lines, and the exit
code. -/
structure MainOutcome where
  stdoutDocs : List (List MatrixEntry)
  stderrLines : List String
  exitCode : Nat
deriving DecidableEq

/-- `main` (`generate-matrix.py` lines 58-86).  `configFile = none`
models a missing `ubuntu-versions.yml`; otherwise the parsed document is
given.  A raising lookup inside `generate_matrix` lands in the `except`
clause: error text on stderr, exit 1, nothing on stdout.  On success the
single JSON document is printed and the process exits 0. -/
def main (configFile : Option Config) (include_upcoming : Bool) : MainOutcome :=
  match configFile with
  | none =>
      { stdoutDocs := []
        stderrLines := ["Error: ubuntu-versions.yml not found"]
        exitCode := 1 }
  | some config =>
      match generate_matrix config include_upcoming with
      | Except.ok matrix =>
          { stdoutDocs := [matrix], stderrLines := [], exitCode := 0 }
      | Except.error e =>
          { stdoutDocs := []
            stderrLines := ["Error generating matrix: " ++ e]
            exitCode := 1 }

/-- The supported descriptor of the specification's worked example. -/
def dS : VersionDescriptor :=
  ⟨some ("22.04"), none, some ("o1"), some ("s1"), some ("3.10"), some ("active"), none⟩

/-- The matrix entry the worked example expects for `dS`. -/
def eS : MatrixEntry := ⟨"22.04", "22.04", "o1", "s1", "3.10", false⟩

/-- An upcoming descriptor with a `pre_release_image` override. -/
def dU : VersionDescriptor :=
  ⟨some ("25.10"), some ("nn"), some ("o2"), some ("s2"), some ("3.13"), none,
    some ⟨some ("po"), some ("ps")⟩⟩

/-- The entry generated for `dU`: override offer/SKU, tolerant flag. -/
def eU : MatrixEntry := ⟨"25.10", "nn", "po", "ps", "3.13", true⟩

/-- An upcoming descriptor without a `pre_release_image` override. -/
def dU2 : VersionDescriptor :=
  ⟨some ("24.10"), none, some ("o3"), some ("s3"), some ("3.12"), none, none⟩

/-- The entry generated for `dU2`: standard offer/SKU. -/
def eU2 : MatrixEntry := ⟨"24.10", "24.10", "o3", "s3", "3.12", true⟩

/-- An upcoming descriptor lacking the standard `image_offer` and
`image_sku` keys but carrying a `pre_release_image` override. -/
def dBadUp : VersionDescriptor :=
  ⟨some ("25.10"), none, none, none, some ("3.13"), none, some ⟨some ("po"), some ("ps")⟩⟩

/-- A configuration whose only descriptor is `dBadUp`, listed under
`upcoming_versions`. -/
def cfgNoStd : Config := ⟨some [], some [dBadUp]⟩

/-- A descriptor with every key absent. -/
def dEmpty : VersionDescriptor := ⟨none, none, none, none, none, none, none⟩





end GenerateMatrix

namespace MonitorInstallation

/-- `DEFAULT_VM_NAME` (`monitor_installation.py` line 14). -/
def DEFAULT_VM_NAME : String := "iiab-lokole-test"

/-- `POLL_INTERVAL` (line 15): duration of each `time.sleep` call. -/
def POLL_INTERVAL : Nat := 120

/-- `MAX_POLLS` (line 16): the poll-count ceiling. -/
def MAX_POLLS : Nat := 90

/-- Outcome of one `subprocess.run` invocation as seen by
`run_command`: normal completion with a return code and captured
streams, a `TimeoutExpired`, or any other raised exception. -/
inductive CmdOutcome where
  | finished (returncode : Int) (stdout : String) (stderr : String)
  | timedOut
  | raised (msg : String)
deriving DecidableEq

/-- The external command-execution facility: what happens for a given
command string run under a given timeout. -/
abbrev Exec : Type := String → Nat → CmdOutcome

/-- `run_command` (`monitor_installation.py` lines 26-40): returns the
triple `(returncode, stdout, stderr)`; a timeout becomes
`(-1, empty, Command timed out)` and any other exception becomes
`(-2, empty, exception text)`. -/
def run_command (ex : Exec) (cmd : String) (timeout : Nat) : Int × String × String :=
  match ex cmd timeout with
  | CmdOutcome.finished rc out err => (rc, out, err)
  | CmdOutcome.timedOut => (-1, "", "Command timed out")
  | CmdOutcome.raised msg => (-2, "", msg)

/-- The remote marker-check command of `check_installation_complete`
(line 44). -/
def install_check_cmd (vm : String) : String :=
  "multipass exec " ++ vm ++
    " -- bash -c \"grep -q RECAP /opt/iiab/iiab/iiab-install.log 2>/dev/null\""

/-- `check_installation_complete` (lines 42-46): the marker is present
exactly when the remote grep, run with timeout 30, returns code 0. -/
def check_installation_complete (ex : Exec) (vm : String) : Bool :=
  decide ((run_command ex (install_check_cmd vm) 30).1 = 0)

/-- The remote process-check command of `check_process_running`
(line 50). -/
def process_check_cmd (vm : String) : String :=
  "multipass exec " ++ vm ++ " -- bash -c \"pgrep -f ansible-playbook > /dev/null\""

/-- `check_process_running` (lines 48-52): process detected exactly when
the remote pgrep, run with timeout 30, returns code 0. -/
def check_process_running (ex : Exec) (vm : String) : Bool :=
  decide ((run_command ex (process_check_cmd vm) 30).1 = 0)

/-- The status-listing command of `get_vm_status` (line 56). -/
def vm_status_cmd (vm : String) : String :=
  "multipass list | grep " ++ vm

/-- `get_vm_status` (lines 54-62): second whitespace-separated word of
the command's stdout, `Unknown` otherwise.  `run_command` is called with
its default timeout, 30. -/
def get_vm_status (ex : Exec) (vm : String) : String :=
  let stdout := (run_command ex (vm_status_cmd vm) 30).2.1
  if stdout ≠ "" then
    let parts := (stdout.split Char.isWhitespace).filter (fun s => s ≠ "")
    if 2 ≤ parts.length then parts.getD 1 ("Unknown") else "Unknown"
  else "Unknown"

/-- The mutable state of the monitoring loop (`main`, lines 88-89), plus
a count of the `time.sleep(POLL_INTERVAL)` calls made so far. -/
structure LoopState where
  poll_count : Nat
  installation_complete : Bool
  sleeps : Nat
deriving DecidableEq

/-- The `while poll_count < MAX_POLLS` loop of `main` (lines 91-105).
The environment `env` gives, for each poll number, the command-execution
oracle in effect during that poll.  Fuel is `MAX_POLLS - poll_count`,
which decreases by exactly one per iteration because the counter is
incremented exactly once per iteration.  The process check and the VM
status query only produce log lines, so their results are discarded. -/
def monitor_loop (env : Nat → Exec) (vm : String) : Nat → LoopState → LoopState
  | 0, st => st
  | Nat.succ fuel, st =>
      let pc := st.poll_count + 1
      if check_installation_complete (env pc) vm then
        { poll_count := pc, installation_complete := true, sleeps := st.sleeps }
      else
        let _ := check_process_running (env pc) vm
        let _ := get_vm_status (env pc) vm
        let sleeps2 := if pc < MAX_POLLS then st.sleeps + 1 else st.sleeps
        monitor_loop env vm fuel
          { poll_count := pc, installation_complete := false, sleeps := sleeps2 }

/-- Terminal states of a monitoring session. -/
inductive SessionState where
  | COMPLETE
  | TIMED_OUT
deriving DecidableEq

/-- Observable outcome of one run of the monitor's `main`: how many
polls were recorded, the terminal state, the process exit code, and how
many `time.sleep(POLL_INTERVAL)` calls happened. -/
structure SessionResult where
  polls : Nat
  state : SessionState
  exitCode : Nat
  sleeps : Nat
deriving DecidableEq

/-- `main` (lines 64-113): the VM name is the optional positional
argument, defaulting to `DEFAULT_VM_NAME`; the loop starts at
`poll_count = 0`, `installation_complete = False`; the process exits 0
exactly when the completion marker was observed. -/
def main (env : Nat → Exec) (vmArg : Option String) : SessionResult :=
  let vm := Option.getD vmArg DEFAULT_VM_NAME
  let final := monitor_loop env vm MAX_POLLS
    { poll_count := 0, installation_complete := false, sleeps := 0 }
  { polls := final.poll_count
    state := if final.installation_complete then SessionState.COMPLETE else SessionState.TIMED_OUT
    exitCode := if final.installation_complete then 0 else 1
    sleeps := final.sleeps }

/-- Oracle where every command finishes immediately with code 0. -/
def execOk : Exec := fun _ _ => CmdOutcome.finished 0 "" ""

/-- Oracle where every command times out. -/
def execTimeout : Exec := fun _ _ => CmdOutcome.timedOut



end MonitorInstallation

namespace GenerateMatrix

@[simp] lemma requireField_some {α : Type} (a : α) :
    requireField (some a) = Except.ok a := rfl

@[simp] lemma requireField_none {α : Type} :
    requireField (none : Option α) = Except.error ("KeyError") := rfl

@[simp] lemma bind_ok_eq {α β : Type} (a : α) (f : α → Except String β) :
    Except.bind (Except.ok a) f = f a := rfl

@[simp] lemma bind_error_eq {α β : Type} (msg : String) (f : α → Except String β) :
    Except.bind (Except.error msg) f = (Except.error msg : Except String β) := rfl

@[simp] lemma buildEntries_nil (f : VersionDescriptor → Except String MatrixEntry) :
    buildEntries f [] = Except.ok [] := rfl

@[simp] lemma buildEntries_cons (f : VersionDescriptor → Except String MatrixEntry)
    (v : VersionDescriptor) (rest : List VersionDescriptor) :
    buildEntries f (v :: rest) =
      Except.bind (f v) (fun e =>
      Except.bind (buildEntries f rest) (fun es =>
      Except.ok (e :: es))) := rfl

lemma supportedEntry_ok_elim (v : VersionDescriptor) (e : MatrixEntry)
    (h : supportedEntry v = Except.ok e) :
    v.version = some e.ubuntu_version ∧ v.image_offer = some e.image_offer ∧
    v.image_sku = some e.image_sku ∧ v.python = some e.python_expected ∧
    e.ubuntu_lts = Option.getD v.lts e.ubuntu_version ∧
    e.continue_on_error = decide (v.status ≠ some ("active")) := by
  obtain ⟨ver, lts, off, sku, py, st, pri⟩ := v
  cases ver with
  | none => simp [supportedEntry] at h
  | some ver =>
    cases off with
    | none => simp [supportedEntry] at h
    | some off =>
      cases sku with
      | none => simp [supportedEntry] at h
      | some sku =>
        cases py with
        | none => simp [supportedEntry] at h
        | some py =>
          simp only [supportedEntry, requireField_some, bind_ok_eq,
            Except.ok.injEq] at h
          subst h
          exact ⟨rfl, rfl, rfl, rfl, rfl, rfl⟩

lemma upcomingEntry_ok_elim (v : VersionDescriptor) (e : MatrixEntry)
    (h : upcomingEntry v = Except.ok e) :
    v.version = some e.ubuntu_version ∧ v.python = some e.python_expected ∧
    e.ubuntu_lts = Option.getD v.lts e.ubuntu_version ∧
    e.continue_on_error = true ∧
    (∀ pri, v.pre_release_image = some pri →
      pri.offer = some e.image_offer ∧ pri.sku = some e.image_sku) ∧
    (v.pre_release_image = none →
      v.image_offer = some e.image_offer ∧ v.image_sku = some e.image_sku) := by
  obtain ⟨ver, lts, off, sku, py, st, pri⟩ := v
  cases pri with
  | none =>
    cases off with
    | none => simp [upcomingEntry, upcomingImage] at h
    | some off =>
      cases sku with
      | none => simp [upcomingEntry, upcomingImage] at h
      | some sku =>
        cases ver with
        | none => simp [upcomingEntry, upcomingImage] at h
        | some ver =>
          cases py with
          | none => simp [upcomingEntry, upcomingImage] at h
          | some py =>
            simp only [upcomingEntry, upcomingImage, requireField_some,
              bind_ok_eq, Except.ok.injEq] at h
            subst h
            refine ⟨rfl, rfl, rfl, rfl, ?_, ?_⟩
            · intro pri hp; cases hp
            · intro hn; exact ⟨rfl, rfl⟩
  | some pri =>
    obtain ⟨po, ps⟩ := pri
    cases po with
    | none => simp [upcomingEntry, upcomingImage] at h
    | some po =>
      cases ps with
      | none => simp [upcomingEntry, upcomingImage] at h
      | some ps =>
        cases ver with
        | none => simp [upcomingEntry, upcomingImage] at h
        | some ver =>
          cases py with
          | none => simp [upcomingEntry, upcomingImage] at h
          | some py =>
            simp only [upcomingEntry, upcomingImage, requireField_some,
              bind_ok_eq, Except.ok.injEq] at h
            subst h
            refine ⟨rfl, rfl, rfl, rfl, ?_, ?_⟩
            · intro pri2 hp
              injection hp with hp2
              subst hp2
              exact ⟨rfl, rfl⟩
            · intro hn; cases hn

lemma supportedEntry_error_of_missing (v : VersionDescriptor)
    (hmiss : v.version = none ∨ v.image_offer = none ∨
      v.image_sku = none ∨ v.python = none) :
    ∃ msg, supportedEntry v = Except.error msg := by
  cases hse : supportedEntry v with
  | error msg => exact ⟨msg, rfl⟩
  | ok e =>
    exfalso
    have hf := supportedEntry_ok_elim v e hse
    rcases hmiss with h | h | h | h
    · rw [h] at hf; exact Option.noConfusion hf.1
    · rw [h] at hf; exact Option.noConfusion hf.2.1
    · rw [h] at hf; exact Option.noConfusion hf.2.2.1
    · rw [h] at hf; exact Option.noConfusion hf.2.2.2.1

lemma upcomingEntry_error_of_missing (v : VersionDescriptor)
    (hmiss : v.version = none ∨ v.python = none ∨
      (v.pre_release_image = none ∧ (v.image_offer = none ∨ v.image_sku = none)) ∨
      (∃ pri, v.pre_release_image = some pri ∧ (pri.offer = none ∨ pri.sku = none))) :
    ∃ msg, upcomingEntry v = Except.error msg := by
  cases hse : upcomingEntry v with
  | error msg => exact ⟨msg, rfl⟩
  | ok e =>
    exfalso
    have hf := upcomingEntry_ok_elim v e hse
    rcases hmiss with h | h | ⟨hn, h⟩ | ⟨pri, hp, h⟩
    · rw [h] at hf; exact Option.noConfusion hf.1
    · rw [h] at hf; exact Option.noConfusion hf.2.1
    · have hstd := hf.2.2.2.2.2 hn
      rcases h with h | h
      · rw [h] at hstd; exact Option.noConfusion hstd.1
      · rw [h] at hstd; exact Option.noConfusion hstd.2
    · have hpri := hf.2.2.2.2.1 pri hp
      rcases h with h | h
      · rw [h] at hpri; exact Option.noConfusion hpri.1
      · rw [h] at hpri; exact Option.noConfusion hpri.2

lemma buildEntries_ok_forall (f : VersionDescriptor → Except String MatrixEntry) :
    ∀ (xs : List VersionDescriptor) (ys : List MatrixEntry),
      buildEntries f xs = Except.ok ys →
      List.Forall₂ (fun v e => f v = Except.ok e) xs ys := by
  intro xs
  induction xs with
  | nil =>
    intro ys h
    simp only [buildEntries_nil, Except.ok.injEq] at h
    subst h
    exact List.Forall₂.nil
  | cons v rest ih =>
    intro ys h
    rw [buildEntries_cons] at h
    cases hf : f v with
    | error msg => rw [hf] at h; simp at h
    | ok e =>
      rw [hf, bind_ok_eq] at h
      cases hr : buildEntries f rest with
      | error msg => rw [hr] at h; simp at h
      | ok es =>
        rw [hr, bind_ok_eq] at h
        injection h with h2
        subst h2
        exact List.Forall₂.cons hf (ih es hr)

lemma buildEntries_error_of_mem (f : VersionDescriptor → Except String MatrixEntry) :
    ∀ (xs : List VersionDescriptor) (v : VersionDescriptor) (msg : String),
      v ∈ xs → f v = Except.error msg →
      ∃ msg2, buildEntries f xs = Except.error msg2 := by
  intro xs
  induction xs with
  | nil => intro v msg hmem; cases hmem
  | cons x rest ih =>
    intro v msg hmem hv
    rcases List.mem_cons.mp hmem with rfl | hmem2
    · exact ⟨msg, by rw [buildEntries_cons, hv, bind_error_eq]⟩
    · cases hfx : f x with
      | error m2 => exact ⟨m2, by rw [buildEntries_cons, hfx, bind_error_eq]⟩
      | ok e =>
        obtain ⟨m2, hm2⟩ := ih v msg hmem2 hv
        exact ⟨m2, by rw [buildEntries_cons, hfx, bind_ok_eq, hm2, bind_error_eq]⟩

lemma generate_matrix_error_of_supported_missing (cfg : Config) (inc : Bool)
    (v : VersionDescriptor) (hmem : v ∈ Option.getD cfg.supported_versions [])
    (hmiss : v.version = none ∨ v.image_offer = none ∨
      v.image_sku = none ∨ v.python = none) :
    ∃ msg, generate_matrix cfg inc = Except.error msg := by
  obtain ⟨msg, hmsg⟩ := supportedEntry_error_of_missing v hmiss
  obtain ⟨m2, hm2⟩ := buildEntries_error_of_mem supportedEntry _ v msg hmem hmsg
  exact ⟨m2, by rw [generate_matrix, hm2, bind_error_eq]⟩

lemma generate_matrix_error_of_upcoming_missing (cfg : Config)
    (v : VersionDescriptor) (hmem : v ∈ Option.getD cfg.upcoming_versions [])
    (hmiss : v.version = none ∨ v.python = none ∨
      (v.pre_release_image = none ∧ (v.image_offer = none ∨ v.image_sku = none)) ∨
      (∃ pri, v.pre_release_image = some pri ∧ (pri.offer = none ∨ pri.sku = none))) :
    ∃ msg, generate_matrix cfg true = Except.error msg := by
  cases hb : buildEntries supportedEntry (Option.getD cfg.supported_versions []) with
  | error msg => exact ⟨msg, by rw [generate_matrix, hb, bind_error_eq]⟩
  | ok s =>
    obtain ⟨msg, hmsg⟩ := upcomingEntry_error_of_missing v hmiss
    obtain ⟨m2, hm2⟩ := buildEntries_error_of_mem upcomingEntry _ v msg hmem hmsg
    refine ⟨m2, ?_⟩
    rw [generate_matrix, hb, bind_ok_eq]
    simp [hm2]

lemma main_of_error (cfg : Config) (inc : Bool) (msg : String)
    (h : generate_matrix cfg inc = Except.error msg) :
    main (some cfg) inc =
      { stdoutDocs := [], stderrLines := ["Error generating matrix: " ++ msg], exitCode := 1 } := by
  simp [main, h]

lemma main_of_ok (cfg : Config) (inc : Bool) (m : List MatrixEntry)
    (h : generate_matrix cfg inc = Except.ok m) :
    main (some cfg) inc = { stdoutDocs := [m], stderrLines := [], exitCode := 0 } := by
  simp [main, h]

/-- C1: `generate_matrix` yields the supported descriptors' entries
first, aligned index-by-index with the input list; the upcoming
descriptors' entries follow, again in input order, only when the
include-upcoming flag is given; with the flag omitted the output is
exactly the supported entries — zero upcoming entries even when
`upcoming_versions` is defined — so its length equals the number of
supported descriptors. -/
theorem C1_matrix_order (cfg : Config) :
    (∀ m, generate_matrix cfg false = Except.ok m →
        List.Forall₂ (fun v e => supportedEntry v = Except.ok e)
          (Option.getD cfg.supported_versions []) m ∧
        m.length = (Option.getD cfg.supported_versions []).length) ∧
    (∀ m, generate_matrix cfg true = Except.ok m →
        ∃ s u, m = s ++ u ∧
          List.Forall₂ (fun v e => supportedEntry v = Except.ok e)
            (Option.getD cfg.supported_versions []) s ∧
          List.Forall₂ (fun v e => upcomingEntry v = Except.ok e)
            (Option.getD cfg.upcoming_versions []) u) := by
  constructor
  · intro m h
    rw [generate_matrix] at h
    cases hb : buildEntries supportedEntry (Option.getD cfg.supported_versions []) with
    | error msg => rw [hb, bind_error_eq] at h; cases h
    | ok s =>
      rw [hb, bind_ok_eq, if_neg (by simp)] at h
      injection h with h2
      subst h2
      have hf := buildEntries_ok_forall supportedEntry _ s hb
      exact ⟨hf, (List.Forall₂.length_eq hf).symm⟩
  · intro m h
    rw [generate_matrix] at h
    cases hb : buildEntries supportedEntry (Option.getD cfg.supported_versions []) with
    | error msg => rw [hb, bind_error_eq] at h; cases h
    | ok s =>
      rw [hb, bind_ok_eq, if_pos rfl] at h
      cases hu : buildEntries upcomingEntry (Option.getD cfg.upcoming_versions []) with
      | error msg => rw [hu, bind_error_eq] at h; cases h
      | ok u =>
        rw [hu, bind_ok_eq] at h
        injection h with h2
        subst h2
        exact ⟨s, u, rfl, buildEntries_ok_forall supportedEntry _ s hb,
          buildEntries_ok_forall upcomingEntry _ u hu⟩

/-- C1 witness: concrete configuration with one supported and one
upcoming descriptor, flag omitted. -/
theorem C1_matrix_order_witness :
    List.Forall₂ (fun v e => supportedEntry v = Except.ok e) [dS] [eS] ∧
    ([eS] : List MatrixEntry).length = ([dS] : List VersionDescriptor).length :=
  (C1_matrix_order ⟨some [dS], some [dU]⟩).1 [eS] rfl

/-- C2: every entry generated from an upcoming descriptor has
`continue_on_error = true` unconditionally, and an entry generated from
a supported descriptor has `continue_on_error = false` exactly when the
descriptor's `status` field is present and equal to `active`. -/
theorem C2_continue_on_error_invariant :
    (∀ v e, upcomingEntry v = Except.ok e → e.continue_on_error = true) ∧
    (∀ v e, supportedEntry v = Except.ok e →
      (e.continue_on_error = false ↔ v.status = some ("active"))) := by
  constructor
  · intro v e h
    exact (upcomingEntry_ok_elim v e h).2.2.2.1
  · intro v e h
    have hc := (supportedEntry_ok_elim v e h).2.2.2.2.2
    rw [hc]
    simp

/-- C2 witness: an active supported descriptor gets a strict entry, an
upcoming descriptor a tolerant one. -/
theorem C2_continue_on_error_witness :
    eU.continue_on_error = true ∧
    (eS.continue_on_error = false ↔ dS.status = some ("active")) :=
  ⟨C2_continue_on_error_invariant.1 dU eU rfl,
   C2_continue_on_error_invariant.2 dS eS rfl⟩

/-- C3: an upcoming entry takes its image offer and SKU from the
`pre_release_image` override when present and from the standard fields
otherwise; a supported entry always takes the standard fields
(`supportedEntry` never consults `pre_release_image`, whatever its
value). -/
theorem C3_image_selection :
    (∀ v pri e, upcomingEntry v = Except.ok e → v.pre_release_image = some pri →
        pri.offer = some e.image_offer ∧ pri.sku = some e.image_sku) ∧
    (∀ v e, upcomingEntry v = Except.ok e → v.pre_release_image = none →
        v.image_offer = some e.image_offer ∧ v.image_sku = some e.image_sku) ∧
    (∀ v e, supportedEntry v = Except.ok e →
        v.image_offer = some e.image_offer ∧ v.image_sku = some e.image_sku) := by
  refine ⟨?_, ?_, ?_⟩
  · intro v pri e h hp
    exact (upcomingEntry_ok_elim v e h).2.2.2.2.1 pri hp
  · intro v e h hn
    exact (upcomingEntry_ok_elim v e h).2.2.2.2.2 hn
  · intro v e h
    have hf := supportedEntry_ok_elim v e h
    exact ⟨hf.2.1, hf.2.2.1⟩

/-- C3 witness: `dU` carries an override that lands in `eU`; `dU2` has
none and falls back to its standard fields. -/
theorem C3_image_selection_witness :
    (PreReleaseImage.offer ⟨some ("po"), some ("ps")⟩ = some eU.image_offer ∧
      PreReleaseImage.sku ⟨some ("po"), some ("ps")⟩ = some eU.image_sku) ∧
    (dU2.image_offer = some eU2.image_offer ∧ dU2.image_sku = some eU2.image_sku) :=
  ⟨C3_image_selection.1 dU ⟨some ("po"), some ("ps")⟩ eU rfl rfl,
   C3_image_selection.2.1 dU2 eU2 rfl rfl⟩

/-- C4: every generated entry's `ubuntu_lts` is the descriptor's `lts`
field when present and the `version` field otherwise (for supported and
upcoming descriptors alike), and on the specification's worked example
the program prints exactly the expected single-entry document and exits
with code 0. -/
theorem C4_lts_default_and_example :
    (∀ v e, supportedEntry v = Except.ok e →
        v.version = some e.ubuntu_version ∧
        e.ubuntu_lts = Option.getD v.lts e.ubuntu_version) ∧
    (∀ v e, upcomingEntry v = Except.ok e →
        v.version = some e.ubuntu_version ∧
        e.ubuntu_lts = Option.getD v.lts e.ubuntu_version) ∧
    main (some ⟨some [dS], none⟩) false =
      { stdoutDocs := [[eS]], stderrLines := [], exitCode := 0 } := by
  refine ⟨?_, ?_, rfl⟩
  · intro v e h
    have hf := supportedEntry_ok_elim v e h
    exact ⟨hf.1, hf.2.2.2.2.1⟩
  · intro v e h
    have hf := upcomingEntry_ok_elim v e h
    exact ⟨hf.1, hf.2.2.1⟩

/-- C4 witness: a descriptor with an explicit `lts` label and one
without. -/
theorem C4_lts_default_witness :
    (dU.version = some eU.ubuntu_version ∧
      eU.ubuntu_lts = Option.getD dU.lts eU.ubuntu_version) ∧
    (dS.version = some eS.ubuntu_version ∧
      eS.ubuntu_lts = Option.getD dS.lts eS.ubuntu_version) :=
  ⟨C4_lts_default_and_example.2.1 dU eU rfl,
   C4_lts_default_and_example.1 dS eS rfl⟩

/-- C7 counterexample: the claim says a descriptor lacking `image_offer`
or `image_sku` makes the generator exit with status 1 and emit nothing,
but the upcoming descriptor `dBadUp` lacks both, and with the
include-upcoming flag the program succeeds: exit code 0 and a structured
document on stdout built from the `pre_release_image` override. -/
theorem C7_counterexample :
    dBadUp.image_offer = none ∧ dBadUp.image_sku = none ∧
    main (some cfgNoStd) true =
      { stdoutDocs := [[⟨"25.10", "25.10", "po", "ps", "3.13", true⟩]],
        stderrLines := [], exitCode := 0 } :=
  ⟨rfl, rfl, rfl⟩

/-- C7 amended: a missing configuration file exits 1 with a descriptive
stderr line and nothing on stdout; structured output appears on stdout
only when the whole matrix was computed successfully; a supported
descriptor lacking `version`, `image_offer`, `image_sku` or `python`
always causes exit 1, an error line on stderr, and no stdout output; an
upcoming descriptor causes the same exactly for the fields the generator
reads on its path (`version`, `python`, and the override's `offer`/`sku`
when `pre_release_image` is present, else the standard
`image_offer`/`image_sku`) and only when the flag is given. -/
theorem C7_error_handling :
    (∀ inc, main none inc =
      { stdoutDocs := [], stderrLines := ["Error: ubuntu-versions.yml not found"],
        exitCode := 1 }) ∧
    (∀ cfg inc, (main (some cfg) inc).stdoutDocs ≠ [] →
      ∃ m, generate_matrix cfg inc = Except.ok m ∧
        main (some cfg) inc = { stdoutDocs := [m], stderrLines := [], exitCode := 0 }) ∧
    (∀ cfg inc v, v ∈ Option.getD cfg.supported_versions [] →
      (v.version = none ∨ v.image_offer = none ∨ v.image_sku = none ∨ v.python = none) →
      (main (some cfg) inc).exitCode = 1 ∧ (main (some cfg) inc).stdoutDocs = [] ∧
        (main (some cfg) inc).stderrLines ≠ []) ∧
    (∀ cfg v, v ∈ Option.getD cfg.upcoming_versions [] →
      (v.version = none ∨ v.python = none ∨
        (v.pre_release_image = none ∧ (v.image_offer = none ∨ v.image_sku = none)) ∨
        (∃ pri, v.pre_release_image = some pri ∧ (pri.offer = none ∨ pri.sku = none))) →
      (main (some cfg) true).exitCode = 1 ∧ (main (some cfg) true).stdoutDocs = [] ∧
        (main (some cfg) true).stderrLines ≠ []) := by
  refine ⟨fun inc => rfl, ?_, ?_, ?_⟩
  · intro cfg inc hne
    cases hg : generate_matrix cfg inc with
    | ok m => exact ⟨m, rfl, main_of_ok cfg inc m hg⟩
    | error msg => rw [main_of_error cfg inc msg hg] at hne; simp at hne
  · intro cfg inc v hmem hmiss
    obtain ⟨msg, hmsg⟩ := generate_matrix_error_of_supported_missing cfg inc v hmem hmiss
    rw [main_of_error cfg inc msg hmsg]
    exact ⟨rfl, rfl, by simp⟩
  · intro cfg v hmem hmiss
    obtain ⟨msg, hmsg⟩ := generate_matrix_error_of_upcoming_missing cfg v hmem hmiss
    rw [main_of_error cfg true msg hmsg]
    exact ⟨rfl, rfl, by simp⟩

/-- C7 witness: a supported descriptor with every key absent makes the
run fail with exit 1, an error on stderr, and no stdout output. -/
theorem C7_error_handling_witness :
    (main (some ⟨some [dEmpty], none⟩) false).exitCode = 1 ∧
    (main (some ⟨some [dEmpty], none⟩) false).stdoutDocs = [] ∧
    (main (some ⟨some [dEmpty], none⟩) false).stderrLines ≠ [] :=
  C7_error_handling.2.2.1 ⟨some [dEmpty], none⟩ false dEmpty
    (List.mem_singleton.mpr rfl) (Or.inl rfl)

/-- C8 counterexample: the claim says a document without the top-level
`supported_versions` key is fatal (non-zero exit, no structured output),
but on such a document the program exits 0 and prints the structured
document with an empty include list. -/
theorem C8_counterexample :
    Config.supported_versions ⟨none, none⟩ = none ∧
    main (some ⟨none, none⟩) false =
      { stdoutDocs := [[]], stderrLines := [], exitCode := 0 } :=
  ⟨rfl, rfl⟩

/-- C8 amended: a configuration missing `supported_versions` is treated
as having an empty supported list, not as malformed input: without the
flag the generator succeeds with an empty include list and exit code 0,
and with the flag it succeeds with exactly the upcoming entries whenever
those build successfully. -/
theorem C8_missing_supported_key (cfg : Config) (h : cfg.supported_versions = none) :
    generate_matrix cfg false = Except.ok [] ∧
    main (some cfg) false = { stdoutDocs := [[]], stderrLines := [], exitCode := 0 } ∧
    (∀ u, buildEntries upcomingEntry (Option.getD cfg.upcoming_versions []) = Except.ok u →
      main (some cfg) true = { stdoutDocs := [u], stderrLines := [], exitCode := 0 }) := by
  have hg : generate_matrix cfg false = Except.ok [] := by
    simp [generate_matrix, h]
  refine ⟨hg, main_of_ok cfg false [] hg, ?_⟩
  intro u hu
  have hg2 : generate_matrix cfg true = Except.ok u := by
    rw [generate_matrix, h]
    simp [hu]
  exact main_of_ok cfg true u hg2

/-- C8 witness: the wholly empty configuration document. -/
theorem C8_missing_supported_key_witness :
    generate_matrix ⟨none, none⟩ false = Except.ok [] ∧
    main (some (⟨none, none⟩ : Config)) false =
      { stdoutDocs := [[]], stderrLines := [], exitCode := 0 } :=
  ⟨(C8_missing_supported_key ⟨none, none⟩ rfl).1,
   (C8_missing_supported_key ⟨none, none⟩ rfl).2.1⟩

end GenerateMatrix

namespace MonitorInstallation

lemma monitor_loop_zero (env : Nat → Exec) (vm : String) (st : LoopState) :
    monitor_loop env vm 0 st = st := rfl

lemma monitor_loop_succ (env : Nat → Exec) (vm : String) (fuel : Nat) (st : LoopState) :
    monitor_loop env vm (fuel + 1) st =
      if check_installation_complete (env (st.poll_count + 1)) vm then
        { poll_count := st.poll_count + 1, installation_complete := true, sleeps := st.sleeps }
      else
        monitor_loop env vm fuel
          { poll_count := st.poll_count + 1, installation_complete := false,
            sleeps := if st.poll_count + 1 < MAX_POLLS then st.sleeps + 1 else st.sleeps } := rfl

lemma monitor_loop_poll_ge (env : Nat → Exec) (vm : String) :
    ∀ (fuel : Nat) (st : LoopState),
      st.poll_count ≤ (monitor_loop env vm fuel st).poll_count := by
  intro fuel
  induction fuel with
  | zero => intro st; exact le_refl _
  | succ f ih =>
    intro st
    rw [monitor_loop_succ]
    cases hc : check_installation_complete (env (st.poll_count + 1)) vm with
    | true =>
      rw [if_pos rfl]
      exact Nat.le_succ _
    | false =>
      rw [if_neg Bool.false_ne_true]
      have h1 :=
        ih { poll_count := st.poll_count + 1, installation_complete := false,
             sleeps := if st.poll_count + 1 < MAX_POLLS then st.sleeps + 1 else st.sleeps }
      have h2 : st.poll_count + 1 ≤
          (monitor_loop env vm f
            { poll_count := st.poll_count + 1, installation_complete := false,
              sleeps := if st.poll_count + 1 < MAX_POLLS then st.sleeps + 1 else st.sleeps }).poll_count :=
        h1
      omega

lemma monitor_loop_poll_ge1 (env : Nat → Exec) (vm : String) (fuel : Nat) (st : LoopState)
    (hf : 1 ≤ fuel) :
    st.poll_count + 1 ≤ (monitor_loop env vm fuel st).poll_count := by
  obtain ⟨f, rfl⟩ : ∃ f, fuel = f + 1 := ⟨fuel - 1, by omega⟩
  rw [monitor_loop_succ]
  cases hc : check_installation_complete (env (st.poll_count + 1)) vm with
  | true => rw [if_pos rfl]
  | false =>
    rw [if_neg Bool.false_ne_true]
    have h1 :=
      monitor_loop_poll_ge env vm f
        { poll_count := st.poll_count + 1, installation_complete := false,
          sleeps := if st.poll_count + 1 < MAX_POLLS then st.sleeps + 1 else st.sleeps }
    exact h1

lemma monitor_loop_poll_le (env : Nat → Exec) (vm : String) :
    ∀ (fuel : Nat) (st : LoopState),
      (monitor_loop env vm fuel st).poll_count ≤ st.poll_count + fuel := by
  intro fuel
  induction fuel with
  | zero => intro st; exact Nat.le_add_right _ _
  | succ f ih =>
    intro st
    rw [monitor_loop_succ]
    cases hc : check_installation_complete (env (st.poll_count + 1)) vm with
    | true =>
      rw [if_pos rfl]
      show st.poll_count + 1 ≤ st.poll_count + (f + 1)
      omega
    | false =>
      rw [if_neg Bool.false_ne_true]
      have h1 :=
        ih { poll_count := st.poll_count + 1, installation_complete := false,
             sleeps := if st.poll_count + 1 < MAX_POLLS then st.sleeps + 1 else st.sleeps }
      have h2 : (monitor_loop env vm f
          { poll_count := st.poll_count + 1, installation_complete := false,
            sleeps := if st.poll_count + 1 < MAX_POLLS then st.sleeps + 1 else st.sleeps }).poll_count ≤
          st.poll_count + 1 + f :=
        h1
      omega

lemma monitor_loop_first_true (env : Nat → Exec) (vm : String) :
    ∀ (fuel : Nat) (st : LoopState) (n : Nat),
      st.poll_count + fuel = MAX_POLLS →
      st.poll_count < n → n ≤ MAX_POLLS →
      (∀ k, st.poll_count < k → k < n → check_installation_complete (env k) vm = false) →
      check_installation_complete (env n) vm = true →
      monitor_loop env vm fuel st =
        { poll_count := n, installation_complete := true,
          sleeps := st.sleeps + (n - st.poll_count - 1) } := by
  intro fuel
  induction fuel with
  | zero =>
    intro st n hfuel hlt hle _ _
    exfalso
    omega
  | succ f ih =>
    intro st n hfuel hlt hle hfalse htrue
    by_cases hn : st.poll_count + 1 = n
    · have harith : st.sleeps + (n - st.poll_count - 1) = st.sleeps := by omega
      rw [monitor_loop_succ, hn, htrue, if_pos rfl, harith]
    · have hplt : st.poll_count + 1 < n := by omega
      have hcf : check_installation_complete (env (st.poll_count + 1)) vm = false :=
        hfalse _ (by omega) hplt
      have hslt : st.poll_count + 1 < MAX_POLLS := by omega
      rw [monitor_loop_succ, hcf, if_neg Bool.false_ne_true, if_pos hslt]
      have hrec :
          monitor_loop env vm f
            { poll_count := st.poll_count + 1, installation_complete := false,
              sleeps := st.sleeps + 1 } =
          { poll_count := n, installation_complete := true,
            sleeps := st.sleeps + 1 + (n - (st.poll_count + 1) - 1) } :=
        ih _ n (by show st.poll_count + 1 + f = MAX_POLLS; omega) hplt hle
          (fun k hk1 hk2 => hfalse k (Nat.lt_of_succ_lt hk1) hk2) htrue
      have harith : st.sleeps + 1 + (n - (st.poll_count + 1) - 1) =
          st.sleeps + (n - st.poll_count - 1) := by omega
      rw [hrec, harith]

lemma monitor_loop_all_false (env : Nat → Exec) (vm : String) :
    ∀ (fuel : Nat) (st : LoopState),
      st.poll_count + fuel = MAX_POLLS →
      st.installation_complete = false →
      (∀ k, st.poll_count < k → k ≤ MAX_POLLS → check_installation_complete (env k) vm = false) →
      monitor_loop env vm fuel st =
        { poll_count := MAX_POLLS, installation_complete := false,
          sleeps := st.sleeps + (fuel - 1) } := by
  intro fuel
  induction fuel with
  | zero =>
    intro st hfuel hcomp _
    rw [monitor_loop_zero]
    show st = { poll_count := MAX_POLLS, installation_complete := false, sleeps := st.sleeps }
    rw [(by omega : MAX_POLLS = st.poll_count), ← hcomp]
  | succ f ih =>
    intro st hfuel hcomp hfalse
    have hcf : check_installation_complete (env (st.poll_count + 1)) vm = false :=
      hfalse _ (by omega) (by omega)
    rw [monitor_loop_succ, hcf, if_neg Bool.false_ne_true]
    by_cases hf0 : f = 0
    · subst hf0
      rw [if_neg (by omega : ¬ st.poll_count + 1 < MAX_POLLS), monitor_loop_zero,
        (by omega : st.poll_count + 1 = MAX_POLLS)]
      rfl
    · rw [if_pos (by omega : st.poll_count + 1 < MAX_POLLS)]
      have hrec :
          monitor_loop env vm f
            { poll_count := st.poll_count + 1, installation_complete := false,
              sleeps := st.sleeps + 1 } =
          { poll_count := MAX_POLLS, installation_complete := false,
            sleeps := st.sleeps + 1 + (f - 1) } :=
        ih _ (by show st.poll_count + 1 + f = MAX_POLLS; omega) rfl
          (fun k hk1 hk2 => hfalse k (Nat.lt_of_succ_lt hk1) hk2)
      have harith : st.sleeps + 1 + (f - 1) = st.sleeps + (f + 1 - 1) := by omega
      rw [hrec, harith]

lemma monitor_loop_complete_iff (env : Nat → Exec) (vm : String) :
    ∀ (fuel : Nat) (st : LoopState),
      st.installation_complete = false →
      ((monitor_loop env vm fuel st).installation_complete = true ↔
        ∃ k, st.poll_count < k ∧ k ≤ st.poll_count + fuel ∧
          check_installation_complete (env k) vm = true) := by
  intro fuel
  induction fuel with
  | zero =>
    intro st hcomp
    rw [monitor_loop_zero, hcomp]
    constructor
    · intro h; exact absurd h Bool.false_ne_true
    · rintro ⟨k, h1, h2, _⟩; exfalso; omega
  | succ f ih =>
    intro st hcomp
    cases hc : check_installation_complete (env (st.poll_count + 1)) vm with
    | true =>
      rw [monitor_loop_succ, hc, if_pos rfl]
      constructor
      · intro _; exact ⟨st.poll_count + 1, by omega, by omega, hc⟩
      · intro _; rfl
    | false =>
      rw [monitor_loop_succ, hc, if_neg Bool.false_ne_true]
      have hiff :
          ((monitor_loop env vm f
            { poll_count := st.poll_count + 1, installation_complete := false,
              sleeps := if st.poll_count + 1 < MAX_POLLS then st.sleeps + 1 else st.sleeps }).installation_complete = true ↔
            ∃ k, st.poll_count + 1 < k ∧ k ≤ st.poll_count + 1 + f ∧
              check_installation_complete (env k) vm = true) :=
        ih _ rfl
      rw [hiff]
      constructor
      · rintro ⟨k, h1, h2, h3⟩
        exact ⟨k, by omega, by omega, h3⟩
      · rintro ⟨k, h1, h2, h3⟩
        refine ⟨k, ?_, by omega, h3⟩
        rcases Nat.lt_or_ge (st.poll_count + 1) k with hk | hk
        · exact hk
        · exfalso
          have hkeq : k = st.poll_count + 1 := by omega
          rw [hkeq] at h3
          rw [h3] at hc
          cases hc

lemma monitor_loop_sleeps (env : Nat → Exec) (vm : String) :
    ∀ (fuel : Nat) (st : LoopState), 1 ≤ fuel → st.poll_count + fuel = MAX_POLLS →
      (monitor_loop env vm fuel st).sleeps =
        st.sleeps + ((monitor_loop env vm fuel st).poll_count - st.poll_count - 1) := by
  intro fuel
  induction fuel with
  | zero => intro st h0 _; omega
  | succ f ih =>
    intro st _ hfuel
    cases hc : check_installation_complete (env (st.poll_count + 1)) vm with
    | true =>
      rw [monitor_loop_succ, hc, if_pos rfl]
      show st.sleeps = st.sleeps + (st.poll_count + 1 - st.poll_count - 1)
      omega
    | false =>
      rw [monitor_loop_succ, hc, if_neg Bool.false_ne_true]
      by_cases hf0 : f = 0
      · subst hf0
        rw [if_neg (by omega : ¬ st.poll_count + 1 < MAX_POLLS), monitor_loop_zero]
        show st.sleeps = st.sleeps + (st.poll_count + 1 - st.poll_count - 1)
        omega
      · rw [if_pos (by omega : st.poll_count + 1 < MAX_POLLS)]
        have h1 :
            (monitor_loop env vm f
              { poll_count := st.poll_count + 1, installation_complete := false,
                sleeps := st.sleeps + 1 }).sleeps =
            (st.sleeps + 1) +
              ((monitor_loop env vm f
                { poll_count := st.poll_count + 1, installation_complete := false,
                  sleeps := st.sleeps + 1 }).poll_count - (st.poll_count + 1) - 1) :=
          ih { poll_count := st.poll_count + 1, installation_complete := false,
               sleeps := st.sleeps + 1 }
            (by omega) (by show st.poll_count + 1 + f = MAX_POLLS; omega)
        have h2 : st.poll_count + 1 + 1 ≤
            (monitor_loop env vm f
              { poll_count := st.poll_count + 1, installation_complete := false,
                sleeps := st.sleeps + 1 }).poll_count :=
          monitor_loop_poll_ge1 env vm f
            { poll_count := st.poll_count + 1, installation_complete := false,
              sleeps := st.sleeps + 1 } (by omega)
        omega

lemma monitor_loop_congr (env env2 : Nat → Exec) (vm : String)
    (h : ∀ k, check_installation_complete (env k) vm = check_installation_complete (env2 k) vm) :
    ∀ (fuel : Nat) (st : LoopState),
      monitor_loop env vm fuel st = monitor_loop env2 vm fuel st := by
  intro fuel
  induction fuel with
  | zero => intro st; rfl
  | succ f ih =>
    intro st
    rw [monitor_loop_succ, monitor_loop_succ, h (st.poll_count + 1)]
    cases hc : check_installation_complete (env2 (st.poll_count + 1)) vm with
    | true => rw [if_pos rfl, if_pos rfl]
    | false =>
      rw [if_neg Bool.false_ne_true, if_neg Bool.false_ne_true]
      exact ih _

/-- C5: the poll ceiling is the fixed constant 90; if the
completion-marker check first succeeds at poll n with 1 ≤ n ≤ 90, the
session ends COMPLETE with exit code 0 after exactly n polls (and n - 1
sleeps); if the check never succeeds within the ceiling, the session
ends TIMED_OUT with exit code 1 after exactly 90 polls; and the recorded
poll count never exceeds the ceiling. -/
theorem C5_session_outcomes (env : Nat → Exec) (vmArg : Option String) (n : Nat) :
    MAX_POLLS = 90 ∧
    ((1 ≤ n ∧ n ≤ MAX_POLLS ∧
      (∀ k, 1 ≤ k → k < n →
        check_installation_complete (env k) (Option.getD vmArg DEFAULT_VM_NAME) = false) ∧
      check_installation_complete (env n) (Option.getD vmArg DEFAULT_VM_NAME) = true) →
      main env vmArg =
        { polls := n, state := SessionState.COMPLETE, exitCode := 0, sleeps := n - 1 }) ∧
    ((∀ k, 1 ≤ k → k ≤ MAX_POLLS →
      check_installation_complete (env k) (Option.getD vmArg DEFAULT_VM_NAME) = false) →
      main env vmArg =
        { polls := MAX_POLLS, state := SessionState.TIMED_OUT, exitCode := 1,
          sleeps := MAX_POLLS - 1 }) ∧
    (main env vmArg).polls ≤ MAX_POLLS := by
  refine ⟨rfl, ?_, ?_, ?_⟩
  · rintro ⟨h1, h2, h3, h4⟩
    have hl :
        monitor_loop env (Option.getD vmArg DEFAULT_VM_NAME) MAX_POLLS
          { poll_count := 0, installation_complete := false, sleeps := 0 } =
        { poll_count := n, installation_complete := true, sleeps := 0 + (n - 0 - 1) } :=
      monitor_loop_first_true env (Option.getD vmArg DEFAULT_VM_NAME) MAX_POLLS
        { poll_count := 0, installation_complete := false, sleeps := 0 } n
        (by show 0 + MAX_POLLS = MAX_POLLS; omega) h1 h2
        (fun k hk1 hk2 => h3 k hk1 hk2) h4
    simp [main, hl]
  · intro h
    have hl :
        monitor_loop env (Option.getD vmArg DEFAULT_VM_NAME) MAX_POLLS
          { poll_count := 0, installation_complete := false, sleeps := 0 } =
        { poll_count := MAX_POLLS, installation_complete := false,
          sleeps := 0 + (MAX_POLLS - 1) } :=
      monitor_loop_all_false env (Option.getD vmArg DEFAULT_VM_NAME) MAX_POLLS
        { poll_count := 0, installation_complete := false, sleeps := 0 }
        (by show 0 + MAX_POLLS = MAX_POLLS; omega) rfl
        (fun k hk1 hk2 => h k hk1 hk2)
    simp [main, hl]
  · have hle :
        (monitor_loop env (Option.getD vmArg DEFAULT_VM_NAME) MAX_POLLS
          { poll_count := 0, installation_complete := false, sleeps := 0 }).poll_count ≤
        0 + MAX_POLLS :=
      monitor_loop_poll_le env (Option.getD vmArg DEFAULT_VM_NAME) MAX_POLLS
        { poll_count := 0, installation_complete := false, sleeps := 0 }
    show (main env vmArg).polls ≤ MAX_POLLS
    simp only [main]
    omega

/-- C5 witness: an oracle whose marker check succeeds immediately gives
COMPLETE, exit 0, one poll, no sleep. -/
theorem C5_session_outcomes_witness :
    main (fun _ => execOk) none =
      { polls := 1, state := SessionState.COMPLETE, exitCode := 0, sleeps := 0 } :=
  (C5_session_outcomes (fun _ => execOk) none 1).2.1
    ⟨le_refl 1, by decide, fun k hk1 hk2 => absurd hk2 (Nat.not_lt.mpr hk1), rfl⟩

/-- C6: each per-poll remote invocation is issued with the 30-unit
timeout, and a timed-out or failed invocation is indistinguishable from
"marker not found" / "process not detected": the check functions answer
false, the session outcome depends only on the sequence of marker-check
answers (so such a failure cannot abort the session or change the exit
status by itself), and the session ends COMPLETE exactly when some poll
among the first 90 finds the marker — otherwise only the poll ceiling
ends it. -/
theorem C6_poll_error_tolerance :
    (∀ ex vm rc out err, ex (install_check_cmd vm) 30 = CmdOutcome.finished rc out err →
      (check_installation_complete ex vm = true ↔ rc = 0)) ∧
    (∀ ex vm, ex (install_check_cmd vm) 30 = CmdOutcome.timedOut →
      check_installation_complete ex vm = false) ∧
    (∀ ex vm msg, ex (install_check_cmd vm) 30 = CmdOutcome.raised msg →
      check_installation_complete ex vm = false) ∧
    (∀ ex vm, ex (process_check_cmd vm) 30 = CmdOutcome.timedOut →
      check_process_running ex vm = false) ∧
    (∀ ex vm msg, ex (process_check_cmd vm) 30 = CmdOutcome.raised msg →
      check_process_running ex vm = false) ∧
    (∀ ex ex2 vm, (∀ c, ex c 30 = ex2 c 30) →
      check_installation_complete ex vm = check_installation_complete ex2 vm ∧
      check_process_running ex vm = check_process_running ex2 vm ∧
      get_vm_status ex vm = get_vm_status ex2 vm) ∧
    (∀ env env2 vmArg,
      (∀ k, check_installation_complete (env k) (Option.getD vmArg DEFAULT_VM_NAME) =
            check_installation_complete (env2 k) (Option.getD vmArg DEFAULT_VM_NAME)) →
      main env vmArg = main env2 vmArg) ∧
    (∀ env vmArg, ((main env vmArg).state = SessionState.COMPLETE ↔
      ∃ k, 1 ≤ k ∧ k ≤ MAX_POLLS ∧
        check_installation_complete (env k) (Option.getD vmArg DEFAULT_VM_NAME) = true)) := by
  refine ⟨?_, ?_, ?_, ?_, ?_, ?_, ?_, ?_⟩
  · intro ex vm rc out err h
    simp [check_installation_complete, run_command, h]
  · intro ex vm h
    simp [check_installation_complete, run_command, h]
  · intro ex vm msg h
    simp [check_installation_complete, run_command, h]
  · intro ex vm h
    simp [check_process_running, run_command, h]
  · intro ex vm msg h
    simp [check_process_running, run_command, h]
  · intro ex ex2 vm h
    refine ⟨?_, ?_, ?_⟩
    · simp [check_installation_complete, run_command, h (install_check_cmd vm)]
    · simp [check_process_running, run_command, h (process_check_cmd vm)]
    · simp [get_vm_status, run_command, h (vm_status_cmd vm)]
  · intro env env2 vmArg h
    have hcongr :=
      monitor_loop_congr env env2 (Option.getD vmArg DEFAULT_VM_NAME) h MAX_POLLS
        { poll_count := 0, installation_complete := false, sleeps := 0 }
    simp [main, hcongr]
  · intro env vmArg
    have hiff :
        ((monitor_loop env (Option.getD vmArg DEFAULT_VM_NAME) MAX_POLLS
          { poll_count := 0, installation_complete := false,
            sleeps := 0 }).installation_complete = true ↔
          ∃ k, 1 ≤ k ∧ k ≤ MAX_POLLS ∧
            check_installation_complete (env k) (Option.getD vmArg DEFAULT_VM_NAME) = true) :=
      monitor_loop_complete_iff env (Option.getD vmArg DEFAULT_VM_NAME) MAX_POLLS
        { poll_count := 0, installation_complete := false, sleeps := 0 } rfl
    constructor
    · intro hst
      refine hiff.mp ?_
      cases hfc : (monitor_loop env (Option.getD vmArg DEFAULT_VM_NAME) MAX_POLLS
          { poll_count := 0, installation_complete := false,
            sleeps := 0 }).installation_complete with
      | true => rfl
      | false => simp [main, hfc] at hst
    · intro hex
      have hfc := hiff.mpr hex
      simp [main, hfc]

/-- C6 witness: an oracle that times out on every invocation: the marker
check and the process check both answer false. -/
theorem C6_poll_error_tolerance_witness :
    check_installation_complete execTimeout DEFAULT_VM_NAME = false ∧
    check_process_running execTimeout DEFAULT_VM_NAME = false :=
  ⟨C6_poll_error_tolerance.2.1 execTimeout DEFAULT_VM_NAME rfl,
   C6_poll_error_tolerance.2.2.2.1 execTimeout DEFAULT_VM_NAME rfl⟩

/-- C9: `run_command` always returns a `(returncode, stdout, stderr)`
triple, for every possible outcome of the underlying invocation: the
process's own triple on normal completion, `(-1, empty, Command timed
out)` on a timeout, and `(-2, empty, exception text)` on any other
raised exception — no exception propagates to the caller. -/
theorem C9_run_command_total (ex : Exec) (cmd : String) (t : Nat) :
    (∀ rc out err, ex cmd t = CmdOutcome.finished rc out err →
      run_command ex cmd t = (rc, out, err)) ∧
    (ex cmd t = CmdOutcome.timedOut →
      run_command ex cmd t = (-1, "", "Command timed out")) ∧
    (∀ msg, ex cmd t = CmdOutcome.raised msg →
      run_command ex cmd t = (-2, "", msg)) := by
  refine ⟨?_, ?_, ?_⟩
  · intro rc out err h
    simp [run_command, h]
  · intro h
    simp [run_command, h]
  · intro msg h
    simp [run_command, h]

/-- C9 witness: a timed-out invocation yields the sentinel triple. -/
theorem C9_run_command_total_witness :
    run_command execTimeout ("anycmd") 30 = (-1, "", "Command timed out") :=
  (C9_run_command_total execTimeout ("anycmd") 30).2.1 rfl

/-- C10: each sleep lasts the fixed 120-unit interval, and a sleep
happens only between two consecutive polls: the sleep count is always
exactly one less than the poll count, so after the 90th unsuccessful
poll the monitor exits with 89 sleeps (no trailing sleep), and a first
success at poll n leaves n - 1 sleeps (no sleep after the successful
check). -/
theorem C10_sleep_between_polls (env : Nat → Exec) (vmArg : Option String) (n : Nat) :
    POLL_INTERVAL = 120 ∧
    (main env vmArg).sleeps + 1 = (main env vmArg).polls ∧
    ((∀ k, 1 ≤ k → k ≤ MAX_POLLS →
      check_installation_complete (env k) (Option.getD vmArg DEFAULT_VM_NAME) = false) →
      (main env vmArg).sleeps = MAX_POLLS - 1 ∧ (main env vmArg).polls = MAX_POLLS) ∧
    ((1 ≤ n ∧ n ≤ MAX_POLLS ∧
      (∀ k, 1 ≤ k → k < n →
        check_installation_complete (env k) (Option.getD vmArg DEFAULT_VM_NAME) = false) ∧
      check_installation_complete (env n) (Option.getD vmArg DEFAULT_VM_NAME) = true) →
      (main env vmArg).sleeps = n - 1 ∧ (main env vmArg).polls = n) := by
  refine ⟨rfl, ?_, ?_, ?_⟩
  · have h1 :
        (monitor_loop env (Option.getD vmArg DEFAULT_VM_NAME) MAX_POLLS
          { poll_count := 0, installation_complete := false, sleeps := 0 }).sleeps =
        0 + ((monitor_loop env (Option.getD vmArg DEFAULT_VM_NAME) MAX_POLLS
          { poll_count := 0, installation_complete := false, sleeps := 0 }).poll_count - 0 - 1) :=
      monitor_loop_sleeps env (Option.getD vmArg DEFAULT_VM_NAME) MAX_POLLS
        { poll_count := 0, installation_complete := false, sleeps := 0 }
        (by decide) (by show 0 + MAX_POLLS = MAX_POLLS; omega)
    have h2 :
        0 + 1 ≤ (monitor_loop env (Option.getD vmArg DEFAULT_VM_NAME) MAX_POLLS
          { poll_count := 0, installation_complete := false, sleeps := 0 }).poll_count :=
      monitor_loop_poll_ge1 env (Option.getD vmArg DEFAULT_VM_NAME) MAX_POLLS
        { poll_count := 0, installation_complete := false, sleeps := 0 } (by decide)
    show (main env vmArg).sleeps + 1 = (main env vmArg).polls
    simp only [main]
    omega
  · intro h
    have hl :
        monitor_loop env (Option.getD vmArg DEFAULT_VM_NAME) MAX_POLLS
          { poll_count := 0, installation_complete := false, sleeps := 0 } =
        { poll_count := MAX_POLLS, installation_complete := false,
          sleeps := 0 + (MAX_POLLS - 1) } :=
      monitor_loop_all_false env (Option.getD vmArg DEFAULT_VM_NAME) MAX_POLLS
        { poll_count := 0, installation_complete := false, sleeps := 0 }
        (by show 0 + MAX_POLLS = MAX_POLLS; omega) rfl
        (fun k hk1 hk2 => h k hk1 hk2)
    simp [main, hl]
  · rintro ⟨h1, h2, h3, h4⟩
    have hl :
        monitor_loop env (Option.getD vmArg DEFAULT_VM_NAME) MAX_POLLS
          { poll_count := 0, installation_complete := false, sleeps := 0 } =
        { poll_count := n, installation_complete := true, sleeps := 0 + (n - 0 - 1) } :=
      monitor_loop_first_true env (Option.getD vmArg DEFAULT_VM_NAME) MAX_POLLS
        { poll_count := 0, installation_complete := false, sleeps := 0 } n
        (by show 0 + MAX_POLLS = MAX_POLLS; omega) h1 h2
        (fun k hk1 hk2 => h3 k hk1 hk2) h4
    simp [main, hl]

/-- C10 witness: with an oracle that always times out, the marker is
never found: 90 polls, 89 sleeps — none after the final poll. -/
theorem C10_sleep_between_polls_witness :
    (main (fun _ => execTimeout) none).sleeps = MAX_POLLS - 1 ∧
    (main (fun _ => execTimeout) none).polls = MAX_POLLS :=
  (C10_sleep_between_polls (fun _ => execTimeout) none 1).2.2.1
    (fun _ _ _ => rfl)

end MonitorInstallation
